import Mathlib

/-!
# Verification development for the gedixr extraction pipeline

A shallow embedding of the gedixr repository's extraction pipeline
(`gedixr/extract.py`, `gedixr/gedi.py`, `gedixr/ancillary.py`,
`gedixr/constants.py`) together with theorems settling the frozen claims
about it.

Modelling conventions:
* Python exceptions are values of `PyErr`; fallible code returns `Except PyErr _`.
* pandas DataFrames are `DF`: a list of column names plus a list of rows,
  each row a list of `Cell`s positionally aligned with the columns.
* Numeric HDF5 / pandas values (floats and integer flags alike) are modelled
  as `Rat`; shot identifiers, which the source renders as strings, are `Cell.str`.
* HDF5 files are finite association lists: a file maps beam-group names to
  beams, a beam maps dataset names to datasets (`H5Data`).
* Filesystem and logging I/O is abstracted: a run is given the list of
  discovered files directly (the glob and `set_logging` are assumed to
  succeed), and logging calls are modelled by counters where a claim
  mentions them.  The module-level namespace of `gedixr/ancillary.py`
  (which decides Python attribute lookups such as `anc.error_tracker`)
  is modelled exactly, since several claims hinge on it.
-/

/- The Batteries rational-number operations are marked irreducible, which
blocks `decide`/`rfl` evaluation of the concrete tables used by witnesses;
restore the default transparency for them in this file. -/
attribute [local semireducible] Rat.sub Rat.add Rat.mul Rat.inv

/-- Python exceptions that the modelled code can raise. -/
inductive PyErr where
  | attributeError (name : String)
  | keyError (name : String)
  | runtimeError (msg : String)
  | valueError (msg : String)
  | undefinedVariableError (name : String)
  | indexError
  | typeError
  | zeroDivisionError
  deriving DecidableEq, Repr

/-- A pandas cell: a numeric value, a string, or a shapely point geometry. -/
inductive Cell where
  | num (q : Rat)
  | str (s : String)
  | pt (x y : Rat)
  deriving DecidableEq, Repr

/-- A pandas DataFrame: column names plus rows of cells aligned positionally
with the columns. -/
structure DF where
  cols : List String
  rows : List (List Cell)
  deriving DecidableEq, Repr

/-- How a call to `extract_data` ends: a normal return, an implicit
`return None` after the run-level `except` handler swallowed an exception,
or an exception propagating to the caller. -/
inductive Outcome (α : Type) where
  | ok (out : α)
  | noneReturn
  | raised (e : PyErr)
  deriving DecidableEq, Repr

/-- The observable effects of one `extract_data` call: its outcome, the number
of error-counter increments performed, the output file written (if any), whether
the end-of-run summary warning was printed, and whether execution reached the
file-discovery step. -/
structure RunResult (α : Type) where
  outcome : Outcome α
  errors : Nat
  output : Option α
  warned : Bool
  reachedDiscovery : Bool
  deriving DecidableEq, Repr

/-! ## `gedixr/constants.py` and the module-level constants of `gedixr/gedi.py` -/

/-- `ALLOWED_PRODUCTS` (constants.py line 1, gedi.py line 20). -/
def ALLOWED_PRODUCTS : List String := ["L2A", "L2B"]

/-- `POWER_BEAMS` (constants.py line 5); `FULL_POWER_BEAMS` in gedi.py line 24
has the same value. -/
def POWER_BEAMS : List String := ["BEAM0101", "BEAM0110", "BEAM1000", "BEAM1011"]

/-- `COVERAGE_BEAMS` (constants.py line 6, gedi.py line 25). -/
def COVERAGE_BEAMS : List String := ["BEAM0000", "BEAM0001", "BEAM0010", "BEAM0011"]

/-- `DEFAULT_VARIABLES` (constants.py lines 8-13, gedi.py lines 27-32):
per-product list of (output column name, source layer name) pairs. -/
def DEFAULT_VARIABLES (product : String) : List (String × String) :=
  if product = "L2A" then [("rh98", "rh98")]
  else [("tcc", "cover"), ("fhd", "fhd_normal"), ("pai", "pai"), ("rh100", "rh100")]

/-- `DEFAULT_BASE` (constants.py lines 15-33); `_DEFAULT_BASE` in gedi.py
lines 34-52 has the same value. -/
def DEFAULT_BASE (product : String) : List (String × String) :=
  if product = "L2A" then
    [("shot", "shot_number"),
     ("latitude", "lat_lowestmode"),
     ("longitude", "lon_lowestmode"),
     ("elev", "elev_lowestmode"),
     ("elev_dem_tdx", "digital_elevation_model"),
     ("degrade_flag", "degrade_flag"),
     ("quality_flag", "quality_flag"),
     ("sensitivity", "sensitivity"),
     ("num_detectedmodes", "num_detectedmodes")]
  else
    [("shot", "shot_number"),
     ("latitude", "geolocation/lat_lowestmode"),
     ("longitude", "geolocation/lon_lowestmode"),
     ("elev", "geolocation/elev_lowestmode"),
     ("elev_dem_tdx", "geolocation/digital_elevation_model"),
     ("degrade_flag", "geolocation/degrade_flag"),
     ("quality_flag", "l2b_quality_flag"),
     ("sensitivity", "sensitivity"),
     ("num_detectedmodes", "num_detectedmodes")]

/-! ## The `gedixr.ancillary` module namespace -/

/-- The names defined at module level in `gedixr/ancillary.py`: the five
imported names (lines 1-7) and the five functions it defines
(`set_logging`, `log`, `close_logging`, `prepare_roi`, `to_pathlib`).
Note: there is no `error_tracker` and no `prepare_vec`. -/
def ancillaryModuleNames : List String :=
  ["Path", "logging", "datetime", "gp", "Optional", "Polygon",
   "set_logging", "log", "close_logging", "prepare_roi", "to_pathlib"]

/-- Python attribute lookup `anc.<name>` on the `gedixr.ancillary` module:
returns the attribute if the module defines it, otherwise raises
`AttributeError`. -/
def ancAttr (name : String) : Except PyErr String :=
  if ancillaryModuleNames.contains name then .ok name
  else .error (.attributeError name)

/-! ## Number rendering and rounding helpers used by `_from_file` -/

/-- Python's built-in `round` (round-half-to-even), applied to an exact
rational; non-tie cases round to the nearest integer, ties go to the even
neighbour. -/
def pyRound (x : Rat) : Int :=
  if x - (x.floor : Rat) < 1/2 then x.floor
  else if 1/2 < x - (x.floor : Rat) then x.floor + 1
  else if x.floor % 2 = 0 then x.floor else x.floor + 1

/-- The Python format `f"{_id:0>18}"` from extract.py line 283: the decimal
rendering of the shot identifier, left-padded with `'0'` to a minimum width
of 18 characters (unchanged if it is already at least 18 long). -/
def formatShot18 (n : Nat) : String :=
  String.mk (List.replicate (18 - (Nat.repr n).length) '0') ++ Nat.repr n

/-- The shot rendering `str(h)` from gedi.py line 341: the plain decimal
rendering, with no padding. -/
def formatShotGedi (n : Nat) : String := Nat.repr n

/-! ## Acquisition-month filtering -/

/-- The month test of extract.py lines 132-134: swap the pair when
`filter_month[0] > filter_month[1]`, then keep files whose month lies in the
inclusive range. -/
def monthPassExtract (lo hi m : Nat) : Bool :=
  let p := if lo > hi then (hi, lo) else (lo, hi)
  decide (p.1 ≤ m ∧ m ≤ p.2)

/-- The month test of gedi.py line 173: the inclusive range check with no
swapping. -/
def monthPassGedi (lo hi m : Nat) : Bool :=
  decide (lo ≤ m ∧ m ≤ hi)

/-! ## HDF5 file model -/

/-- One HDF5 dataset: a 1-D numeric array, a 2-D numeric array (the per-shot
`rh` waveform-bin arrays), or a 1-D array of unsigned integers (the
`shot_number` dataset). -/
inductive H5Data where
  | oneD (xs : List Rat)
  | twoD (xss : List (List Rat))
  | uints (ns : List Nat)
  deriving DecidableEq, Repr

/-- A beam group: dataset path → dataset.  Dataset paths that contain a `/`
(e.g. `geolocation/lat_lowestmode`) are kept as single keys. -/
abbrev H5Beam := List (String × H5Data)

/-- A GEDI HDF5 file: beam-group name → beam group. -/
abbrev H5File := List (String × H5Beam)

/-- Python `s.startswith(p)`, computed on the character lists (equivalent to
`String.startsWith`, but written so that concrete instances evaluate). -/
def strStartsWith (s p : String) : Bool := p.data.isPrefixOf s.data

/-- Python `s[n:]` on a string. -/
def strDrop (s : String) (n : Nat) : String := String.mk (s.data.drop n)

/-- Python `int(s)` restricted to plain digit strings: the decimal value
when `s` is nonempty and all digits, otherwise `ValueError` (modelled as
`none`). -/
def strToNat? (s : String) : Option Nat :=
  if s.data ≠ [] ∧ s.data.all Char.isDigit then
    some (s.data.foldl (fun n c => n * 10 + (c.toNat - 48)) 0)
  else none

/-- Monadic map over `Except`, written recursively so that proofs can unfold
it; this is the evaluation order of a Python list comprehension whose body
may raise. -/
def mapE {α β : Type} (f : α → Except PyErr β) : List α → Except PyErr (List β)
  | [] => .ok []
  | a :: as => do
    let b ← f a
    let bs ← mapE f as
    pure (b :: bs)

/-- Dataset lookup `gedi[f"{beam}/{v}"]` within an already-resolved beam. -/
def lookupData (bm : H5Beam) (name : String) : Option H5Data :=
  bm.lookup name

/-- One source file as the run sees it: its name, the acquisition month
decoded from the name by `_date_from_gedi_file` (the name is assumed to be
well-formed), the acquisition timestamp rendered by `str(acq_time)`, and the
HDF5 content. -/
structure SourceFile where
  name : String
  month : Nat
  acq : String
  h5 : H5File
  deriving DecidableEq, Repr

/-! ## `_from_file` (extract.py lines 232-293, gedi.py lines 290-351)

The per-file extractor builds a Python dict `out` mapping output column
names to lists of values; modelled as an insertion-ordered association
list. -/

/-- The extractor's accumulating dict `out`. -/
abbrev OutMap := List (String × List Cell)

/-- `if k not in out: out[k] = []` -/
def ensureKey : OutMap → String → OutMap
  | [], k => [(k, [])]
  | (k', w) :: rest, k =>
    if k' = k then (k', w) :: rest
    else (k', w) :: ensureKey rest k

/-- `out[k].extend(vals)` (the key is present after `ensureKey`). -/
def extendKey : OutMap → String → List Cell → OutMap
  | [], _, _ => []
  | (k', w) :: rest, k, vals =>
    if k' = k then (k', w ++ vals) :: rest
    else (k', w) :: extendKey rest k vals

/-- `out[k] = vals` (dict assignment: replace the entry if present, else
insert it last), used for the `acq_time` column. -/
def setKey : OutMap → String → List Cell → OutMap
  | [], k, vals => [(k, vals)]
  | (k', w) :: rest, k, vals =>
    if k' = k then (k', vals) :: rest
    else (k', w) :: setKey rest k vals

/-- Extraction of the values of one layer `v` from one beam group, following
the three-way branch of `_from_file` (extract.py lines 274-287, gedi.py lines
332-345).  `fmtShot` is the per-variant shot-identifier rendering. -/
def extractOne (fmtShot : Nat → String) (product : String) (bm : H5Beam)
    (v : String) : Except PyErr (List Cell) :=
  if strStartsWith v "rh" && product == "L2A" then
    -- idx = int(v[2:]); raises ValueError on a non-digit suffix
    match strToNat? (strDrop v 2) with
    | none => .error (.valueError "invalid literal for int")
    | some idx =>
      -- [round(h_bin[idx] * 100) for h_bin in gedi[f"{beam}/rh"][()]]
      match lookupData bm "rh" with
      | some (.twoD bins) =>
        mapE (fun b =>
          match b[idx]? with
          | some x => .ok (Cell.num ((pyRound (x * 100) : Int) : Rat))
          | none => .error .indexError) bins
      | some _ => .error .typeError
      | none => .error (.keyError "rh")
  else if v == "shot_number" then
    match lookupData bm v with
    | some (.uints ids) => .ok (ids.map (fun i => Cell.str (fmtShot i)))
    | some _ => .error .typeError
    | none => .error (.keyError v)
  else
    -- out[k].extend(gedi[f"{beam}/{v}"][()])
    match lookupData bm v with
    | some (.oneD xs) => .ok (xs.map Cell.num)
    | some (.uints ns) => .ok (ns.map (fun i => Cell.num (i : Rat)))
    | some (.twoD _) => .error .typeError
    | none => .error (.keyError v)

/-- The inner `for k, v in layers` loop of `_from_file`, wrapped in the
per-beam `try`.  Each branch first runs `if k not in out: out[k] = []`, then
reads the dataset; a raised exception aborts the remaining layers for this
beam but keeps every mutation already made to `out` (including the freshly
ensured empty column). -/
def processLayers (fmtShot : Nat → String) (product : String) (bm : H5Beam) :
    List (String × String) → OutMap → OutMap × Option PyErr
  | [], out => (out, none)
  | (k, v) :: rest, out =>
    let out := ensureKey out k
    match extractOne fmtShot product bm v with
    | .error e => (out, some e)
    | .ok vals => processLayers fmtShot product bm rest (extendKey out k vals)

/-- The `for beam in beams` loop of `_from_file`.  `checkShot` is `true` for
the extract.py variant, whose skip guard (line 268) also tests
`'shot_number' not in gedi[beam].keys()`; gedi.py (line 326) only tests beam
presence.  Returns the accumulated dict, the number of error-counter
increments performed by the per-beam `except` handler, and the number of
informational "beam not found" skip messages logged. -/
def beamLoop (fmtShot : Nat → String) (checkShot : Bool) (product : String)
    (h5 : H5File) (layers : List (String × String)) :
    List String → OutMap → OutMap × Nat × Nat
  | [], out => (out, 0, 0)
  | beam :: rest, out =>
    match h5.lookup beam with
    | none =>
      let (o, e, s) := beamLoop fmtShot checkShot product h5 layers rest out
      (o, e, s + 1)
    | some bm =>
      if checkShot && (lookupData bm "shot_number").isNone then
        let (o, e, s) := beamLoop fmtShot checkShot product h5 layers rest out
        (o, e, s + 1)
      else
        let (out', err) := processLayers fmtShot product bm layers out
        let (o, e, s) := beamLoop fmtShot checkShot product h5 layers rest out'
        (o, e + (if err.isSome then 1 else 0), s)

/-- Decidable equality for `Except`, needed to evaluate concrete run results. -/
instance {ε α : Type} [DecidableEq ε] [DecidableEq α] : DecidableEq (Except ε α)
  | .error a, .error b =>
    if h : a = b then .isTrue (by rw [h]) else .isFalse (fun hh => h (Except.error.inj hh))
  | .error _, .ok _ => .isFalse Except.noConfusion
  | .ok _, .error _ => .isFalse Except.noConfusion
  | .ok a, .ok b =>
    if h : a = b then .isTrue (by rw [h]) else .isFalse (fun hh => h (Except.ok.inj hh))

/-- The observable result of one `_from_file` call: the returned dict (or the
exception it raises), the error-counter increments performed inside it, and
the number of informational beam-skip messages. -/
structure FromFileResult where
  out : Except PyErr OutMap
  errors : Nat
  skips : Nat
  deriving DecidableEq, Repr

/-- `_from_file`, generic over the two variants.  After the beam loop,
`out['acq_time'] = [str(acq_time) for _ in range(len(out['shot']))]`
(extract.py line 292, gedi.py line 350) raises `KeyError('shot')` when no
beam contributed a `shot` column. -/
def fromFileCore (fmtShot : Nat → String) (checkShot : Bool) (product : String)
    (h5 : H5File) (beams : List String) (layers : List (String × String))
    (acq : String) : FromFileResult :=
  let r := beamLoop fmtShot checkShot product h5 layers beams []
  match r.1.lookup "shot" with
  | none => ⟨.error (.keyError "shot"), r.2.1, r.2.2⟩
  | some shots =>
    ⟨.ok (setKey r.1 "acq_time" (List.replicate shots.length (Cell.str acq))), r.2.1, r.2.2⟩

/-- `_from_file` of extract.py: 18-character zero-padded shot identifiers and
the extended skip guard. -/
def fromFileExtract (product : String) (h5 : H5File) (beams : List String)
    (layers : List (String × String)) (acq : String) : FromFileResult :=
  fromFileCore formatShot18 true product h5 beams layers acq

/-- `_from_file` of gedi.py: `str(h)` shot identifiers and the beam-presence
skip guard only. -/
def fromFileGedi (product : String) (h5 : H5File) (beams : List String)
    (layers : List (String × String)) (acq : String) : FromFileResult :=
  fromFileCore formatShotGedi false product h5 beams layers acq

/-! ## DataFrame construction (`pd.DataFrame(out)`) -/

/-- `pd.DataFrame(out)`: columns in dict-insertion order; raises
`ValueError` when the per-column lists have unequal lengths.  Row `i` holds
the `i`-th entry of every column. -/
def toDF (out : OutMap) : Except PyErr DF :=
  match out with
  | [] => .ok ⟨[], []⟩
  | (_, c) :: rest =>
    if rest.all (fun p => p.2.length = c.length) then
      .ok ⟨out.map (fun p => p.1),
           (List.range c.length).map (fun i => out.map (fun p => p.2.getD i (Cell.str "")))⟩
    else .error (.valueError "All arrays must be of the same length")

/-! ## The quality filter (extract.py `_filter_quality` lines 296-332,
gedi.py `filter_quality` lines 354-390) -/

/-- Python's `abs` on an exact rational. -/
def ratAbs (x : Rat) : Rat := if x < 0 then -x else x

/-- The columns referenced by the quality predicate, in the order the
source expressions mention them. -/
def queryCols : List String :=
  ["quality_flag", "degrade_flag", "num_detectedmodes", "elev", "elev_dem_tdx"]

/-- Numeric lookup of one named column in one row: resolves the column
index, then requires a numeric cell there. -/
def lookupNum (cols : List String) (row : List Cell) (c : String) : Except PyErr Rat :=
  match cols.indexOf? c with
  | none => .error (.undefinedVariableError c)
  | some i =>
    match row.get? i with
    | some (.num q) => .ok q
    | _ => .error .typeError

/-- `lookupNum` with a default, for stating row predicates totally. -/
def numAt (cols : List String) (row : List Cell) (c : String) : Rat :=
  match lookupNum cols row c with
  | .ok q => q
  | .error _ => 0

/-- A row is well-formed for the quality predicate when every referenced
column resolves to a numeric cell. -/
def rowWF (cols : List String) (row : List Cell) : Bool :=
  queryCols.all (fun c => (lookupNum cols row c).isOk)

/-- The row predicate of extract.py's query string (lines 323-324):
`quality_flag == 1 & degrade_flag == 0 & num_detectedmodes > 0 &
abs(elev - elev_dem_tdx) < 100`. -/
def qPredExtract (cols : List String) (row : List Cell) : Bool :=
  decide (numAt cols row "quality_flag" = 1 ∧ numAt cols row "degrade_flag" = 0 ∧
          0 < numAt cols row "num_detectedmodes" ∧
          ratAbs (numAt cols row "elev" - numAt cols row "elev_dem_tdx") < 100)

/-- The row predicate of gedi.py's boolean mask (lines 377-382):
`quality_flag.eq(1) & degrade_flag.eq(0) & num_detectedmodes.ge(1) &
abs(elev - elev_dem_tdx) < 100`. -/
def qPredGedi (cols : List String) (row : List Cell) : Bool :=
  decide (numAt cols row "quality_flag" = 1 ∧ numAt cols row "degrade_flag" = 0 ∧
          1 ≤ numAt cols row "num_detectedmodes" ∧
          ratAbs (numAt cols row "elev" - numAt cols row "elev_dem_tdx") < 100)

/-- The quality predicate as the claims state it, with
`num_detectedmodes >= 1`. -/
def qPredClaim (cols : List String) (row : List Cell) : Bool :=
  decide (numAt cols row "quality_flag" = 1 ∧ numAt cols row "degrade_flag" = 0 ∧
          1 ≤ numAt cols row "num_detectedmodes" ∧
          ratAbs (numAt cols row "elev" - numAt cols row "elev_dem_tdx") < 100)

/-- Row-by-row evaluation of a fallible predicate (`df.query` /
`df.where(cond).dropna()` row selection); an evaluation error aborts the
whole call. -/
def filterRows (p : List Cell → Except PyErr Bool) :
    List (List Cell) → Except PyErr (List (List Cell))
  | [] => .ok []
  | r :: rs => do
    let b ← p r
    let rest ← filterRows p rs
    pure (if b then r :: rest else rest)

/-- Except-valued evaluation of extract.py's query condition on one row. -/
def qCondExtract (cols : List String) (row : List Cell) : Except PyErr Bool := do
  let q ← lookupNum cols row "quality_flag"
  let d ← lookupNum cols row "degrade_flag"
  let n ← lookupNum cols row "num_detectedmodes"
  let e ← lookupNum cols row "elev"
  let t ← lookupNum cols row "elev_dem_tdx"
  pure (decide (q = 1 ∧ d = 0 ∧ 0 < n ∧ ratAbs (e - t) < 100))

/-- Except-valued evaluation of gedi.py's mask condition on one row. -/
def qCondGedi (cols : List String) (row : List Cell) : Except PyErr Bool := do
  let q ← lookupNum cols row "quality_flag"
  let d ← lookupNum cols row "degrade_flag"
  let n ← lookupNum cols row "num_detectedmodes"
  let e ← lookupNum cols row "elev"
  let t ← lookupNum cols row "elev_dem_tdx"
  pure (decide (q = 1 ∧ d = 0 ∧ 1 ≤ n ∧ ratAbs (e - t) < 100))

/-- Remove the cells of the named columns from one row (cells beyond the
column list are dropped, matching positional alignment). -/
def removeCells (cols : List String) (cs : List String) (row : List Cell) : List Cell :=
  ((cols.zip row).filter (fun p => ¬ cs.contains p.1)).map (fun p => p.2)

/-- `df.drop(columns=cs)`: raises `KeyError` when a named column is absent. -/
def dropColumns (df : DF) (cs : List String) : Except PyErr DF :=
  if cs.all (fun c => df.cols.contains c) then
    .ok ⟨df.cols.filter (fun c => ¬ cs.contains c),
         df.rows.map (removeCells df.cols cs)⟩
  else .error (.keyError "drop")

/-- `_filter_quality` of extract.py (lines 296-332).  `df.query(cond)` first
resolves the referenced columns (`UndefinedVariableError` when one is
missing), then keeps the rows satisfying the condition;
`df.drop(columns=['quality_flag', 'degrade_flag'])` removes the two flag
columns; finally the log-message computation
`round((len_after / len_before) * 100, 2)` divides by the pre-filter row
count and raises `ZeroDivisionError` when the input table was empty. -/
def filterQualityExtract (df : DF) : Except PyErr DF := do
  match queryCols.find? (fun c => !(df.cols.contains c)) with
  | some c => .error (.undefinedVariableError c)
  | none =>
    let rows ← filterRows (qCondExtract df.cols) df.rows
    let df2 ← dropColumns ⟨df.cols, rows⟩ ["quality_flag", "degrade_flag"]
    if df.rows.length = 0 then .error .zeroDivisionError
    else .ok df2

/-- `filter_quality` of gedi.py (lines 354-390).  The mask expression
evaluates `df['c']` for each referenced column (`KeyError` when missing);
`df.where(cond).dropna()` keeps the rows satisfying the mask (the model
carries no NaN cells, so `dropna` removes exactly the masked-out rows); then
the same column drop and the same division by the pre-filter row count. -/
def filterQualityGedi (df : DF) : Except PyErr DF := do
  match queryCols.find? (fun c => !(df.cols.contains c)) with
  | some c => .error (.keyError c)
  | none =>
    let rows ← filterRows (qCondGedi df.cols) df.rows
    let df2 ← dropColumns ⟨df.cols, rows⟩ ["quality_flag", "degrade_flag"]
    if df.rows.length = 0 then .error .zeroDivisionError
    else .ok df2

/-! ## Geometry construction (extract.py lines 159-165, gedi.py lines 198-204) -/

/-- `df['geometry'] = df.apply(lambda row: Point(row.longitude, row.latitude), axis=1)`
followed by `df.drop(columns=['latitude', 'longitude'])`, `set_crs(4326)` and
`pd.to_datetime` (the last two leave the modelled table unchanged).  Row
attribute access raises `AttributeError` when the column is missing; a
non-numeric coordinate cell raises `TypeError` (shapely rejects it). -/
def buildGeometry (df : DF) : Except PyErr DF := do
  if ¬ df.cols.contains "longitude" then .error (.attributeError "longitude")
  else if ¬ df.cols.contains "latitude" then .error (.attributeError "latitude")
  else
    let geoms ← df.rows.mapM (fun r => do
      let x ← (lookupNum df.cols r "longitude").mapError (fun _ => PyErr.typeError)
      let y ← (lookupNum df.cols r "latitude").mapError (fun _ => PyErr.typeError)
      pure (Cell.pt x y))
    let withGeom : DF := ⟨df.cols ++ ["geometry"],
                          (df.rows.zip geoms).map (fun p => p.1 ++ [p.2])⟩
    dropColumns withGeom ["latitude", "longitude"]

/-! ## Per-file processing and the run coordinator of gedi.py -/

/-- Beam-argument resolution (gedi.py lines 140-147): `None` → all beams,
`'full'` → full-power beams, `'coverage'` → coverage beams, otherwise the
explicit list. -/
def resolveBeamsGedi (beams : Option (String ⊕ List String)) : List String :=
  match beams with
  | none => POWER_BEAMS ++ COVERAGE_BEAMS
  | some (.inl s) =>
    if s = "full" then POWER_BEAMS
    else if s = "coverage" then COVERAGE_BEAMS
    else [s]
  | some (.inr l) => l

/-- `layers = _DEFAULT_BASE[gedi_product] + variables` (gedi.py lines
134-138 and 152), with `variables` defaulting per product. -/
def layersFor (product : String) (vars : Option (List (String × String))) :
    List (String × String) :=
  DEFAULT_BASE product ++ (vars.getD (DEFAULT_VARIABLES product))

/-- Steps (3)-(5) of the per-file loop body of gedi.py (lines 181-204):
`_from_file`, `pd.DataFrame`, optional `filter_quality`, geometry
construction.  Returns the resulting GeoDataFrame (or the exception that
escapes to the per-file handler) together with the error-counter increments
already performed inside `_from_file`. -/
def processFileGedi (product : String) (beams : List String)
    (layers : List (String × String)) (applyQualityFilter : Bool)
    (f : SourceFile) : Except PyErr DF × Nat :=
  let r := fromFileGedi product f.h5 beams layers f.acq
  match r.out with
  | .error e => (.error e, r.errors)
  | .ok out =>
    (do
      let df ← toDF out
      let df ← if applyQualityFilter then filterQualityGedi df else pure df
      buildGeometry df, r.errors)

/-- `pd.concat` over the accumulated per-file GeoDataFrames (gedi.py line
237): raises `ValueError` on an empty list; otherwise concatenates the rows
(the per-file tables share their column layout). -/
def concatDFs : List DF → Except PyErr DF
  | [] => .error (.valueError "No objects to concatenate")
  | d :: ds => .ok ⟨d.cols, d.rows ++ (ds.map (fun x => x.rows)).flatten⟩

/-- One iteration of the `for i, fp in enumerate(tqdm(filepaths))` loop of
gedi.py (lines 170-225), acting on the state (error increments so far,
accumulated per-file GeoDataFrames): a file outside the month range is
skipped; a processed file appends its table; a per-file exception is caught
by the handler of lines 222-225, adding its `_from_file` increments plus
exactly one run-level increment and leaving the accumulator unchanged. -/
def gediStep (product : String) (beams : List String)
    (layers : List (String × String)) (applyQualityFilter : Bool)
    (fm : Nat × Nat) (st : Nat × List DF) (f : SourceFile) : Nat × List DF :=
  if monthPassGedi fm.1 fm.2 f.month then
    match processFileGedi product beams layers applyQualityFilter f with
    | (.ok df, e) => (st.1 + e, st.2 ++ [df])
    | (.error _, e) => (st.1 + e + 1, st.2)
  else st

/-- The `try` body of gedi.py `extract_data` (lines 155-240) for the
no-`subset_vector` case, plus the surrounding `except`/`finally` (lines
241-249): zero discovered files raise `RuntimeError`, which the run-level
handler catches, logs and counts; each in-range file is processed inside the
per-file `try` via `gediStep`; at the end the accumulated tables are
concatenated and written (`pd.concat` of an empty list raises `ValueError`,
again caught and counted by the run-level handler; the write itself is
assumed to succeed), and the summary warning is printed iff the error
counter is nonzero. -/
def runGediLoop (product : String) (beams : List String)
    (layers : List (String × String)) (applyQualityFilter : Bool)
    (fm : Nat × Nat) (files : List SourceFile) : RunResult DF :=
  if files.length = 0 then
    ⟨.noneReturn, 1, none, true, true⟩
  else
    let acc := files.foldl (gediStep product beams layers applyQualityFilter fm) (0, [])
    match concatDFs acc.2 with
    | .error _ => ⟨.noneReturn, acc.1 + 1, none, true, true⟩
    | .ok out => ⟨.ok out, acc.1, some out, acc.1 != 0, true⟩

/-- `extract_data` of gedi.py (lines 57-249) with `temp_unpack_zip=False`,
over an abstract world that supplies the discovered files directly.  The
product validation (lines 125-127) raises before anything else; with a
non-`None` `subset_vector`, line 151 `out_dict = anc.prepare_vec(vec=...)`
performs an attribute lookup on `gedixr.ancillary` before the `try` block,
so its failure propagates to the caller with no cleanup.  (The branch in
which that lookup succeeds is unreachable: `ancillaryModuleNames` contains
no `prepare_vec`.) -/
def gediExtractData (product : String) (subsetVector : Option String)
    (filterMonth : Option (Nat × Nat)) (applyQualityFilter : Bool)
    (files : List SourceFile) : RunResult DF :=
  if ¬ ALLOWED_PRODUCTS.contains product then
    ⟨.raised (.runtimeError "gedi_product"), 0, none, false, false⟩
  else
    let beams := resolveBeamsGedi none
    let layers := layersFor product none
    let fm := filterMonth.getD (1, 12)
    match subsetVector with
    | some _ =>
      match ancAttr "prepare_vec" with
      | .error e => ⟨.raised e, 0, none, false, false⟩
      | .ok _ => ⟨.raised (.attributeError "prepare_vec"), 0, none, false, false⟩
    | none => runGediLoop product beams layers applyQualityFilter fm files

/-! ## The run coordinator of extract.py -/

/-- `extract_data` of extract.py (lines 20-222) over the same abstract
world.  After the product validation (lines 89-91) and the logging setup
(line 96, assumed to succeed), line 97 executes
`anc.error_tracker.reset()`.  `gedixr.ancillary` defines no `error_tracker`
(see `ancillaryModuleNames`), so the attribute lookup raises
`AttributeError`; the call sits before the `try` block of line 119, so the
exception propagates to the caller before any file discovery.  The `.ok`
branch of the lookup is unreachable; its value is nevertheless the faithful
continuation result, because every later path re-reads
`anc.error_tracker`: line 187 (per-file handler), line 216 (run-level
handler) and line 219 (the `finally` block, executed on every exit) all
raise the same `AttributeError`. -/
def extractDataExtractPy (product : String) (_subsetVector : Option String)
    (_files : List SourceFile) : RunResult DF :=
  if ¬ ALLOWED_PRODUCTS.contains product then
    ⟨.raised (.runtimeError "gedi_product"), 0, none, false, false⟩
  else
    match ancAttr "error_tracker" with
    | .error e => ⟨.raised e, 0, none, false, false⟩
    | .ok _ => ⟨.raised (.attributeError "error_tracker"), 0, none, false, false⟩

/-! ## Specification-side helpers for stating the run theorems -/

/-- Whether an outcome is a propagated exception. -/
def Outcome.isRaised {α : Type} : Outcome α → Bool
  | .raised _ => true
  | _ => false

/-- Total projection out of `Except`, with the empty table as default. -/
def okD (e : Except PyErr DF) : DF :=
  match e with
  | .ok d => d
  | .error _ => ⟨[], []⟩

/-- The per-file GeoDataFrames a gedi.py run accumulates: those of the
in-month-range files whose processing succeeds, in file order. -/
def keptDFs (product : String) (beams : List String)
    (layers : List (String × String)) (applyQualityFilter : Bool)
    (fm : Nat × Nat) (files : List SourceFile) : List DF :=
  (files.filter (fun f => monthPassGedi fm.1 fm.2 f.month &&
      (processFileGedi product beams layers applyQualityFilter f).1.isOk)).map
    (fun f => okD (processFileGedi product beams layers applyQualityFilter f).1)

/-- The error-counter increments a gedi.py run performs during its file
loop: for every in-month-range file, the increments made inside `_from_file`
plus exactly one when the file's processing raises. -/
def runErrors (product : String) (beams : List String)
    (layers : List (String × String)) (applyQualityFilter : Bool)
    (fm : Nat × Nat) (files : List SourceFile) : Nat :=
  ((files.filter (fun f => monthPassGedi fm.1 fm.2 f.month)).map
    (fun f => (processFileGedi product beams layers applyQualityFilter f).2 +
      (if (processFileGedi product beams layers applyQualityFilter f).1.isOk
       then 0 else 1))).sum

/-- The skip guard of extract.py `_from_file` line 268 for one beam:
the beam group is absent, or it lacks a `shot_number` dataset. -/
def beamAbsentExtract (h5 : H5File) (b : String) : Bool :=
  match h5.lookup b with
  | none => true
  | some bm => (lookupData bm "shot_number").isNone

/-- The shot-column invariant of the extract.py variant: every cell of the
`shot` column is the 18-zero-padded rendering of some identifier. -/
def ShotOK (out : OutMap) : Prop :=
  ∀ cells, out.lookup "shot" = some cells →
    ∀ c ∈ cells, ∃ n, c = Cell.str (formatShot18 n)

/-! ## Concrete example data used by witnesses and counterexamples -/

/-- The column layout of a default L2A per-file ShotTable (before the
`acq_time` column is appended). -/
def stdColsL2A : List String :=
  ["shot", "latitude", "longitude", "elev", "elev_dem_tdx", "degrade_flag",
   "quality_flag", "sensitivity", "num_detectedmodes", "acq_time"]

/-- An empty per-file ShotTable with the default L2A columns. -/
def emptyShotDF : DF := ⟨stdColsL2A, []⟩

/-- A one-row per-file ShotTable whose single shot satisfies every quality
clause. -/
def exampleShotDF : DF :=
  ⟨stdColsL2A,
   [[Cell.str "000000000000000001", Cell.num 10, Cell.num 20, Cell.num 100,
     Cell.num 50, Cell.num 0, Cell.num 1, Cell.num 1, Cell.num 1, Cell.str "t"]]⟩

/-- A beam group holding one valid shot for every default L2A layer, plus a
three-bin `rh` waveform array. -/
def goodBeam : H5Beam :=
  [("shot_number", .uints [1]),
   ("lat_lowestmode", .oneD [10]),
   ("lon_lowestmode", .oneD [20]),
   ("elev_lowestmode", .oneD [100]),
   ("digital_elevation_model", .oneD [50]),
   ("degrade_flag", .oneD [0]),
   ("quality_flag", .oneD [1]),
   ("sensitivity", .oneD [1]),
   ("num_detectedmodes", .oneD [1]),
   ("rh", .twoD [[0, 1/2, 3]])]

/-- The layer list of an L2A run whose caller passed
`variables=[('rh2', 'rh2')]`. -/
def layersRh2 : List (String × String) := layersFor "L2A" (some [("rh2", "rh2")])

/-- A source file containing one beam with one quality-passing shot. -/
def goodSrc : SourceFile := ⟨"GEDI02_A_good.h5", 6, "t", [("BEAM0000", goodBeam)]⟩

/-- A source file with no beam groups at all: `_from_file` finds no beam,
builds an empty dict and raises `KeyError('shot')`. -/
def badSrc : SourceFile := ⟨"GEDI02_A_bad.h5", 6, "t", []⟩

/-- A source file (of empty content) acquired in month 5, for the
month-filter counterexample. -/
def fileM5 : SourceFile := ⟨"GEDI02_A_may.h5", 5, "t", []⟩

/-! # Theorems -/

/-- The swap of extract.py lines 132-133 makes its month test symmetric in
the pair. -/
theorem monthPassExtract_swap (lo hi m : Nat) :
    monthPassExtract lo hi m = monthPassExtract hi lo m := by
  unfold monthPassExtract
  by_cases h1 : lo > hi
  · have h2 : ¬ hi > lo := by omega
    simp [h1, h2]
  · by_cases h2 : hi > lo
    · simp [h1, h2]
    · have : lo = hi := by omega
      subst this
      rfl

/-- C1: with a validated `gedi_product`, extract.py's `extract_data` always
raises `AttributeError` at line 97 (`anc.error_tracker.reset()`), before the
`try` block and hence before any file discovery or processing; the exception
propagates to the caller uncaught. -/
theorem c1_error_tracker_attribute_error (product : String) (sv : Option String)
    (files : List SourceFile)
    (h : ALLOWED_PRODUCTS.contains product = true) :
    extractDataExtractPy product sv files =
      ⟨.raised (.attributeError "error_tracker"), 0, none, false, false⟩ := by
  have hm : product ∈ ALLOWED_PRODUCTS := by simpa using h
  simp [extractDataExtractPy, hm, ancAttr, ancillaryModuleNames]

theorem c1_witness :
    ALLOWED_PRODUCTS.contains "L2A" = true ∧
    extractDataExtractPy "L2A" none [] =
      ⟨.raised (.attributeError "error_tracker"), 0, none, false, false⟩ :=
  ⟨by decide, c1_error_tracker_attribute_error "L2A" none [] (by decide)⟩

/-- C2 counterexample: a gedi.py run over a world with zero matching files
does NOT propagate a fatal error to the caller: the `RuntimeError` of line
166 is caught by the run-level handler (lines 241-243), the call returns
`None`, and no output is produced. -/
theorem c2_counterexample :
    gediExtractData "L2B" none none true [] = ⟨.noneReturn, 1, none, true, true⟩ ∧
    (gediExtractData "L2B" none none true []).outcome.isRaised = false ∧
    (gediExtractData "L2B" none none true []).output = none := by decide

/-- C2 amended: with zero matching files, a `RuntimeError` is raised and
caught by the run-level handler, which logs it and increments the error
counter; cleanup runs, the summary warning is printed, the call returns
`None`, and no output file is produced — there is no success path, but the
error does not propagate to the caller. -/
theorem c2_zero_files_amended (product : String) (fm : Option (Nat × Nat))
    (aqf : Bool) (h : ALLOWED_PRODUCTS.contains product = true) :
    gediExtractData product none fm aqf [] = ⟨.noneReturn, 1, none, true, true⟩ := by
  have hm : product ∈ ALLOWED_PRODUCTS := by simpa using h
  simp [gediExtractData, hm, runGediLoop]

theorem c2_witness :
    ALLOWED_PRODUCTS.contains "L2A" = true ∧
    gediExtractData "L2A" none (some (6, 8)) false [] =
      ⟨.noneReturn, 1, none, true, true⟩ :=
  ⟨by decide, c2_zero_files_amended "L2A" (some (6, 8)) false (by decide)⟩

/-- C4 counterexample: the gedi.py month filter does not behave as if a
reversed pair had been swapped: with `(6, 2)` a month-5 file is rejected,
while with `(2, 6)` it passes, so the passing file sets differ. -/
theorem c4_counterexample :
    monthPassGedi 6 2 5 = false ∧ monthPassGedi 2 6 5 = true ∧
    ([fileM5].filter (fun f => monthPassGedi 6 2 f.month)) = [] ∧
    ([fileM5].filter (fun f => monthPassGedi 2 6 f.month)) = [fileM5] := by decide

/-- C4 amended: the extract.py month filter satisfies the swap invariant
(pointwise and on the passing file set), while the gedi.py month filter
treats a reversed pair as an empty range that rejects every file. -/
theorem c4_swap_amended (lo hi m : Nat) (files : List SourceFile) (h : lo > hi) :
    monthPassExtract lo hi m = monthPassExtract hi lo m ∧
    (files.filter (fun f => monthPassExtract lo hi f.month)) =
      (files.filter (fun f => monthPassExtract hi lo f.month)) ∧
    monthPassGedi lo hi m = false := by
  refine ⟨monthPassExtract_swap lo hi m, ?_, ?_⟩
  · exact List.filter_congr (fun f _ => monthPassExtract_swap lo hi f.month)
  · simp only [monthPassGedi, decide_eq_false_iff_not]
    omega

theorem c4_witness :
    6 > 2 ∧
    (monthPassExtract 6 2 5 = monthPassExtract 2 6 5 ∧
     ([fileM5].filter (fun f => monthPassExtract 6 2 f.month)) =
       ([fileM5].filter (fun f => monthPassExtract 2 6 f.month)) ∧
     monthPassGedi 6 2 5 = false) :=
  ⟨by decide, c4_swap_amended 6 2 5 [fileM5] (by decide)⟩

/-- C10: with a non-`None` `subset_vector` and a validated product, both
variants raise `AttributeError` before any file is processed: gedi.py at
line 151 (`anc.prepare_vec`, a name `gedixr.ancillary` does not define), and
extract.py already at line 97 (`anc.error_tracker`, also undefined), both
before their `try` blocks, so the spatial-subsetting path is unreachable. -/
theorem c10_prepare_vec_attribute_error (product : String) (sv : String)
    (fm : Option (Nat × Nat)) (aqf : Bool) (files : List SourceFile)
    (h : ALLOWED_PRODUCTS.contains product = true) :
    gediExtractData product (some sv) fm aqf files =
      ⟨.raised (.attributeError "prepare_vec"), 0, none, false, false⟩ ∧
    extractDataExtractPy product (some sv) files =
      ⟨.raised (.attributeError "error_tracker"), 0, none, false, false⟩ := by
  have hm : product ∈ ALLOWED_PRODUCTS := by simpa using h
  constructor
  · simp [gediExtractData, hm, ancAttr, ancillaryModuleNames]
  · simp [extractDataExtractPy, hm, ancAttr, ancillaryModuleNames]

theorem c10_witness :
    ALLOWED_PRODUCTS.contains "L2B" = true ∧
    (gediExtractData "L2B" (some "roi.gpkg") none true [goodSrc] =
       ⟨.raised (.attributeError "prepare_vec"), 0, none, false, false⟩ ∧
     extractDataExtractPy "L2B" (some "roi.gpkg") [goodSrc] =
       ⟨.raised (.attributeError "error_tracker"), 0, none, false, false⟩) :=
  ⟨by decide, c10_prepare_vec_attribute_error "L2B" "roi.gpkg" none true [goodSrc] (by decide)⟩

/-- A well-formed lookup returns exactly the total `numAt` value. -/
theorem lookupNum_eq_of_isOk {cols : List String} {r : List Cell} {c : String}
    (h : (lookupNum cols r c).isOk = true) :
    lookupNum cols r c = .ok (numAt cols r c) := by
  unfold numAt
  cases hl : lookupNum cols r c with
  | ok q => simp
  | error e => rw [hl] at h; simp [Except.isOk, Except.toBool] at h

/-- On a well-formed row, the fallible query condition of extract.py
evaluates to its total Boolean counterpart. -/
theorem qCondExtract_eq {cols : List String} {r : List Cell}
    (h : rowWF cols r = true) :
    qCondExtract cols r = .ok (qPredExtract cols r) := by
  have hall : ∀ c ∈ queryCols, (lookupNum cols r c).isOk = true := by
    simpa [rowWF, List.all_eq_true] using h
  have h1 := lookupNum_eq_of_isOk (hall "quality_flag" (by simp [queryCols]))
  have h2 := lookupNum_eq_of_isOk (hall "degrade_flag" (by simp [queryCols]))
  have h3 := lookupNum_eq_of_isOk (hall "num_detectedmodes" (by simp [queryCols]))
  have h4 := lookupNum_eq_of_isOk (hall "elev" (by simp [queryCols]))
  have h5 := lookupNum_eq_of_isOk (hall "elev_dem_tdx" (by simp [queryCols]))
  simp [qCondExtract, h1, h2, h3, h4, h5, qPredExtract, Except.bind]
  rfl

/-- Row filtering through `Except` agrees with plain filtering when the
condition evaluates totally on every row. -/
theorem filterRows_eq_filter (p : List Cell → Except PyErr Bool)
    (q : List Cell → Bool) (rows : List (List Cell))
    (h : ∀ r ∈ rows, p r = .ok (q r)) :
    filterRows p rows = .ok (rows.filter q) := by
  induction rows with
  | nil => rfl
  | cons r rs ih =>
    have h1 := h r (by simp)
    have h2 : ∀ x ∈ rs, p x = .ok (q x) := fun x hx => h x (by simp [hx])
    simp [filterRows, h1, ih h2, List.filter_cons, Except.bind]
    rfl

/-- C3 amended: on every nonempty, well-formed per-file ShotTable whose
`num_detectedmodes` values are integral, extract.py's quality filter keeps
exactly the rows satisfying `quality_flag == 1`, `degrade_flag == 0`,
`num_detectedmodes >= 1` and `abs(elev - elev_dem_tdx) < 100`, drops the
rows failing any clause, and removes the `quality_flag` and `degrade_flag`
columns from the surviving table.  (The nonemptiness hypothesis is forced by
the counterexample: on an empty table the filter raises.) -/
theorem c3_quality_filter (df : DF)
    (hcols : ∀ c ∈ queryCols, df.cols.contains c = true)
    (hwf : ∀ r ∈ df.rows, rowWF df.cols r = true)
    (hint : ∀ r ∈ df.rows, ∃ k : ℤ, numAt df.cols r "num_detectedmodes" = (k : ℚ))
    (hne : df.rows ≠ []) :
    filterQualityExtract df =
      .ok ⟨df.cols.filter (fun c => ¬ ["quality_flag", "degrade_flag"].contains c),
           (df.rows.filter (qPredClaim df.cols)).map
             (removeCells df.cols ["quality_flag", "degrade_flag"])⟩ := by
  have hfind : queryCols.find? (fun c => !(df.cols.contains c)) = none := by
    apply List.find?_eq_none.mpr
    intro x hx
    have hm : x ∈ df.cols := by simpa using hcols x hx
    simp [hm]
  have hpred : ∀ r ∈ df.rows, qPredExtract df.cols r = qPredClaim df.cols r := by
    intro r hr
    obtain ⟨k, hk⟩ := hint r hr
    unfold qPredExtract qPredClaim
    rw [hk, decide_eq_decide]
    have hiff : (0 < (k : ℚ)) ↔ (1 ≤ (k : ℚ)) := by
      constructor
      · intro h0
        have hz : 0 < k := by exact_mod_cast h0
        have ho : 1 ≤ k := hz
        exact_mod_cast ho
      · intro h1
        linarith
    constructor
    · rintro ⟨a, b, c, d⟩; exact ⟨a, b, hiff.mp c, d⟩
    · rintro ⟨a, b, c, d⟩; exact ⟨a, b, hiff.mpr c, d⟩
  have hrows : filterRows (qCondExtract df.cols) df.rows =
      .ok (df.rows.filter (qPredExtract df.cols)) :=
    filterRows_eq_filter _ _ _ (fun r hr => qCondExtract_eq (hwf r hr))
  have hfilter : df.rows.filter (qPredExtract df.cols) = df.rows.filter (qPredClaim df.cols) :=
    List.filter_congr hpred
  have hlen : ¬ (df.rows.length = 0) := by
    simpa [List.length_eq_zero] using hne
  have hall : (["quality_flag", "degrade_flag"].all (fun c => df.cols.contains c)) = true := by
    have hq : "quality_flag" ∈ df.cols := by
      simpa using hcols "quality_flag" (by simp [queryCols])
    have hd : "degrade_flag" ∈ df.cols := by
      simpa using hcols "degrade_flag" (by simp [queryCols])
    simp [hq, hd]
  rw [hfilter] at hrows
  simp only [filterQualityExtract, hfind, hrows, Except.bind, dropColumns, hall, if_true]
  simp [hlen]
  rfl

theorem c3_witness :
    filterQualityExtract exampleShotDF =
      .ok ⟨exampleShotDF.cols.filter (fun c => ¬ ["quality_flag", "degrade_flag"].contains c),
           (exampleShotDF.rows.filter (qPredClaim exampleShotDF.cols)).map
             (removeCells exampleShotDF.cols ["quality_flag", "degrade_flag"])⟩ :=
  c3_quality_filter exampleShotDF (by decide) (by decide)
    (by
      intro r hr
      simp [exampleShotDF] at hr
      subst hr
      exact ⟨1, by decide⟩)
    (by decide)

/-- C3 counterexample: on the empty per-file ShotTable the quality filter
does not return the filtered table; the percentage-log computation
`round((len_after / len_before) * 100, 2)` (extract.py line 328) divides by
the pre-filter row count and raises `ZeroDivisionError`. -/
theorem c3_counterexample :
    filterQualityExtract emptyShotDF = .error .zeroDivisionError ∧
    filterQualityExtract emptyShotDF ≠
      .ok ⟨emptyShotDF.cols.filter (fun c => ¬ ["quality_flag", "degrade_flag"].contains c),
           []⟩ := by decide

/-- C5 counterexample: the quality filter cannot be applied twice.  The
first application removes the `quality_flag` column, so the second
application's query references an undefined column and raises, instead of
yielding any row set. -/
theorem c5_counterexample :
    (filterQualityExtract exampleShotDF).bind filterQualityExtract =
      .error (.undefinedVariableError "quality_flag") ∧
    filterQualityExtract exampleShotDF =
      .ok ⟨["shot", "latitude", "longitude", "elev", "elev_dem_tdx", "sensitivity",
            "num_detectedmodes", "acq_time"],
           [[Cell.str "000000000000000001", Cell.num 10, Cell.num 20, Cell.num 100,
             Cell.num 50, Cell.num 1, Cell.num 1, Cell.str "t"]]⟩ := by decide

/-- C5 amended: the row-selection predicate of the quality filter is
idempotent — re-filtering an already-filtered row set changes nothing.  (The
full filter, column drops included, cannot be composed with itself: see the
counterexample.) -/
theorem c5_predicate_idempotent (cols : List String) (rows : List (List Cell)) :
    (rows.filter (qPredExtract cols)).filter (qPredExtract cols) =
      rows.filter (qPredExtract cols) := by
  rw [List.filter_filter]
  exact List.filter_congr (fun x _ => Bool.and_self _)

/-- `mapE` agrees with `List.map` when every element evaluates successfully. -/
theorem mapE_eq_map_of_ok {α β : Type} (f : α → Except PyErr β) (g : α → β)
    (l : List α) (h : ∀ a ∈ l, f a = .ok (g a)) : mapE f l = .ok (l.map g) := by
  induction l with
  | nil => rfl
  | cons a as ih =>
    have h1 := h a (by simp)
    have h2 : ∀ x ∈ as, f x = .ok (g x) := fun x hx => h x (by simp [hx])
    simp [mapE, h1, ih h2, Except.bind]
    rfl

/-- `pyRound` rounds to a nearest integer: its result is within one half of
its argument. -/
theorem pyRound_nearest (y : ℚ) : |(pyRound y : ℚ) - y| ≤ 1/2 := by
  have h1 : (y.floor : ℚ) ≤ y := by
    exact_mod_cast Rat.le_floor.mp (le_refl y.floor)
  have h2 : y < (y.floor : ℚ) + 1 := by
    by_contra hc
    push_neg at hc
    have hcast : ((y.floor + 1 : ℤ) : ℚ) ≤ y := by push_cast; linarith
    have := Rat.le_floor.mpr hcast
    omega
  unfold pyRound
  split_ifs with ha hb hc
  · rw [abs_le]; constructor <;> [linarith; linarith]
  · push_cast
    rw [abs_le]; constructor <;> [linarith; linarith]
  · rw [abs_le]; constructor <;> [linarith; linarith]
  · push_cast
    rw [abs_le]; constructor <;> [linarith; linarith]

/-- C7: for the L2A product and a layer key `rh<digits>`, the beam extractor
reads the full per-shot `rh` waveform-bin array, selects from each shot's
array the bin whose index is the key's integer suffix, multiplies it by 100
and rounds to the nearest integer (Python's `round`, ties to even), and
appends exactly one scalar per shot. -/
theorem c7_rh_bin_extraction (fmtShot : Nat → String) (bm : H5Beam) (v : String)
    (idx : Nat) (bins : List (List Rat))
    (hv : strStartsWith v "rh" = true)
    (hidx : strToNat? (strDrop v 2) = some idx)
    (hrh : lookupData bm "rh" = some (.twoD bins))
    (hlen : ∀ b ∈ bins, idx < b.length) :
    extractOne fmtShot "L2A" bm v =
      .ok (bins.map (fun b => Cell.num ((pyRound (b.getD idx 0 * 100) : Int) : Rat))) ∧
    (bins.map (fun b => Cell.num ((pyRound (b.getD idx 0 * 100) : Int) : Rat))).length
      = bins.length ∧
    ∀ y : ℚ, |(pyRound y : ℚ) - y| ≤ 1/2 := by
  refine ⟨?_, by simp, pyRound_nearest⟩
  unfold extractOne
  simp only [hv, hidx, hrh, Bool.true_and]
  apply mapE_eq_map_of_ok
  intro b hb
  have hbl := hlen b hb
  cases hh : b[idx]? with
  | none =>
    have := List.getElem?_eq_none_iff.mp hh
    omega
  | some x =>
    have hx : b.getD idx 0 = x := by
      rw [List.getD_eq_getElem?_getD, hh]
      rfl
    rw [hx]

theorem c7_witness :
    extractOne formatShotGedi "L2A" [("rh", H5Data.twoD [[0, 1/2, 3]])] "rh2" =
      .ok ([[(0 : Rat), 1/2, 3]].map
        (fun b => Cell.num ((pyRound (b.getD 2 0 * 100) : Int) : Rat))) :=
  (c7_rh_bin_extraction formatShotGedi [("rh", H5Data.twoD [[0, 1/2, 3]])] "rh2" 2
    [[0, 1/2, 3]] (by decide) (by decide) rfl (by decide)).1

/-- A beam loop in which every requested beam is skipped leaves the
accumulating dict untouched, performs no error increment, and logs one skip
per beam. -/
theorem beamLoop_all_absent (fmtShot : Nat → String) (product : String)
    (h5 : H5File) (layers : List (String × String)) (beams : List String)
    (out : OutMap) (h : ∀ b ∈ beams, beamAbsentExtract h5 b = true) :
    beamLoop fmtShot true product h5 layers beams out = (out, 0, beams.length) := by
  induction beams with
  | nil => rfl
  | cons b bs ih =>
    have hb := h b (by simp)
    have hbs : ∀ x ∈ bs, beamAbsentExtract h5 x = true := fun x hx => h x (by simp [hx])
    unfold beamAbsentExtract at hb
    cases hl : h5.lookup b with
    | none => simp [beamLoop, hl, ih hbs]
    | some bm =>
      rw [hl] at hb
      have hb2 : (lookupData bm "shot_number").isNone = true := by simpa using hb
      simp [beamLoop, hl, hb2, ih hbs]

/-- C9 amended: a requested beam that is absent (or lacks its `shot_number`
dataset) is skipped with an informational log message and no error-counter
increment; but a file in which EVERY requested beam is absent does not
complete with zero rows — line 292 `out['shot']` raises `KeyError`, which
the caller's per-file handler then counts as one error. -/
theorem c9_all_beams_absent (product : String) (h5 : H5File)
    (beams : List String) (layers : List (String × String)) (acq : String)
    (h : ∀ b ∈ beams, beamAbsentExtract h5 b = true) :
    fromFileExtract product h5 beams layers acq =
      ⟨.error (.keyError "shot"), 0, beams.length⟩ := by
  unfold fromFileExtract fromFileCore
  rw [beamLoop_all_absent formatShot18 product h5 layers beams [] h]
  rfl

theorem c9_witness :
    fromFileExtract "L2A" [("BEAM0101", [("pai", H5Data.oneD [1])])]
      ["BEAM0000", "BEAM0101"] (layersFor "L2A" none) "t" =
      ⟨.error (.keyError "shot"), 0, 2⟩ :=
  c9_all_beams_absent "L2A" [("BEAM0101", [("pai", H5Data.oneD [1])])]
    ["BEAM0000", "BEAM0101"] (layersFor "L2A" none) "t" (by decide)

/-- C9 counterexample: a file in which every requested beam is absent does
not contribute "no rows with zero errors": `_from_file` raises
`KeyError('shot')`, and in the working (gedi.py) run the per-file handler
counts that as one error. -/
theorem c9_counterexample :
    fromFileExtract "L2A" [] (POWER_BEAMS ++ COVERAGE_BEAMS)
      (layersFor "L2A" none) "t" = ⟨.error (.keyError "shot"), 0, 8⟩ ∧
    (runGediLoop "L2A" ["BEAM0000"] layersRh2 true (1, 12) [badSrc, goodSrc]).errors
      = 1 := by decide

/-- `ensureKey` leaves every lookup unchanged except that a previously
absent key now maps to the empty column. -/
theorem lookup_ensureKey (out : OutMap) (k key : String) :
    (ensureKey out k).lookup key = out.lookup key ∨
    ((ensureKey out k).lookup key = some [] ∧ out.lookup key = none) := by
  induction out with
  | nil =>
    cases hk : (key == k) with
    | true => right; simp [ensureKey, List.lookup, hk]
    | false => left; simp [ensureKey, List.lookup, hk]
  | cons p rest ih =>
    obtain ⟨k', w⟩ := p
    by_cases h1 : k' = k
    · left; simp [ensureKey, h1]
    · cases hk : (key == k') with
      | true => left; simp [ensureKey, h1, List.lookup, hk]
      | false =>
        rcases ih with ih | ⟨ih1, ih2⟩
        · left; simp [ensureKey, h1, List.lookup, hk, ih]
        · right; simp [ensureKey, h1, List.lookup, hk, ih1, ih2]

/-- `extendKey` only changes the extended key's entry, appending to it. -/
theorem lookup_extendKey (out : OutMap) (k key : String) (vals : List Cell) :
    (extendKey out k vals).lookup key =
      if key = k then (out.lookup key).map (fun w => w ++ vals)
      else out.lookup key := by
  induction out with
  | nil => by_cases h : key = k <;> simp [extendKey, List.lookup, h]
  | cons p rest ih =>
    obtain ⟨k', w⟩ := p
    by_cases h1 : k' = k
    · subst h1
      by_cases h2 : key = k'
      · subst h2
        simp [extendKey, List.lookup]
      · have hk : (key == k') = false := by simp [h2]
        simp [extendKey, List.lookup, h2, hk]
    · by_cases h2 : key = k'
      · subst h2
        have hk : (key == key) = true := by simp
        simp [extendKey, List.lookup, h1, hk, Ne.symm h1]
      · have hk : (key == k') = false := by simp [h2]
        simp [extendKey, List.lookup, h1, hk, ih]

/-- `setKey` only changes the assigned key's entry. -/
theorem lookup_setKey_ne (out : OutMap) (k key : String) (vals : List Cell)
    (h : key ≠ k) :
    (setKey out k vals).lookup key = out.lookup key := by
  induction out with
  | nil =>
    have hk : (key == k) = false := by simp [h]
    simp [setKey, List.lookup, hk]
  | cons p rest ih =>
    obtain ⟨k', w⟩ := p
    by_cases h1 : k' = k
    · subst h1
      have hk : (key == k') = false := by simp [h]
      simp [setKey, List.lookup, hk]
    · cases hk : (key == k') with
      | true => simp [setKey, List.lookup, h1, hk]
      | false => simp [setKey, List.lookup, h1, hk, ih]

/-- `ensureKey` preserves the shot-column invariant. -/
theorem shotOK_ensureKey (out : OutMap) (k : String) (h : ShotOK out) :
    ShotOK (ensureKey out k) := by
  intro cells hc c hcm
  rcases lookup_ensureKey out k "shot" with he | ⟨he1, _⟩
  · rw [he] at hc
    exact h cells hc c hcm
  · rw [he1] at hc
    injection hc with hc
    rw [← hc] at hcm
    simp at hcm

/-- The values produced for the `shot_number` layer by the extract.py
variant are all 18-zero-padded shot-identifier strings. -/
theorem shot_cells_of_extractOne (product : String) (bm : H5Beam)
    (vals : List Cell)
    (h : extractOne formatShot18 product bm "shot_number" = .ok vals) :
    ∀ c ∈ vals, ∃ n, c = Cell.str (formatShot18 n) := by
  intro c hcm
  unfold extractOne at h
  rw [show strStartsWith "shot_number" "rh" = false from rfl] at h
  cases hd : lookupData bm "shot_number" with
  | none => rw [hd] at h; simp at h
  | some d =>
    rw [hd] at h
    cases d with
    | oneD xs => simp at h
    | twoD xss => simp at h
    | uints ids =>
      simp at h
      rw [← h] at hcm
      obtain ⟨n, _, hn⟩ := List.mem_map.mp hcm
      exact ⟨n, hn.symm⟩

/-- `extendKey` preserves the shot-column invariant when the extension is
either to another column or consists of padded shot strings. -/
theorem shotOK_extendKey (out : OutMap) (k : String) (vals : List Cell)
    (h : ShotOK out)
    (hvals : k = "shot" → ∀ c ∈ vals, ∃ n, c = Cell.str (formatShot18 n)) :
    ShotOK (extendKey out k vals) := by
  intro cells hc c hcm
  rw [lookup_extendKey] at hc
  by_cases hk : ("shot" : String) = k
  · rw [if_pos hk] at hc
    cases ho : out.lookup "shot" with
    | none => rw [ho] at hc; simp at hc
    | some w =>
      rw [ho] at hc
      simp only [Option.map_some'] at hc
      injection hc with hc
      rw [← hc] at hcm
      rcases List.mem_append.mp hcm with hw | hv
      · exact h w ho c hw
      · exact hvals hk.symm c hv
  · rw [if_neg hk] at hc
    exact h cells hc c hcm

/-- The layer loop of the extract.py variant preserves the shot-column
invariant, provided the layer list only ever maps the `shot` column to the
`shot_number` layer. -/
theorem shotOK_processLayers (product : String) (bm : H5Beam)
    (layers : List (String × String)) (out : OutMap)
    (hl : ∀ p ∈ layers, p.1 = "shot" → p.2 = "shot_number")
    (h : ShotOK out) :
    ShotOK (processLayers formatShot18 product bm layers out).1 := by
  induction layers generalizing out with
  | nil => exact h
  | cons p rest ih =>
    obtain ⟨k, v⟩ := p
    have hout1 : ShotOK (ensureKey out k) := shotOK_ensureKey out k h
    unfold processLayers
    cases he : extractOne formatShot18 product bm v with
    | error e => exact hout1
    | ok vals =>
      refine ih _ (fun q hq => hl q (by simp [hq])) ?_
      apply shotOK_extendKey _ _ _ hout1
      intro hk
      have hv : v = "shot_number" := hl (k, v) (by simp) hk
      rw [hv] at he
      exact shot_cells_of_extractOne product bm vals he

/-- The beam loop of the extract.py variant preserves the shot-column
invariant. -/
theorem shotOK_beamLoop (cs : Bool) (product : String) (h5 : H5File)
    (layers : List (String × String)) (beams : List String) (out : OutMap)
    (hl : ∀ p ∈ layers, p.1 = "shot" → p.2 = "shot_number")
    (h : ShotOK out) :
    ShotOK (beamLoop formatShot18 cs product h5 layers beams out).1 := by
  induction beams generalizing out with
  | nil => exact h
  | cons b bs ih =>
    unfold beamLoop
    cases hlk : h5.lookup b with
    | none => exact ih out h
    | some bm =>
      by_cases hguard : (cs && (lookupData bm "shot_number").isNone) = true
      · simp only [hguard, if_true]
        exact ih out h
      · simp only [Bool.not_eq_true] at hguard
        simp only [hguard, Bool.false_eq_true, if_false, reduceIte]
        exact ih _ (shotOK_processLayers product bm layers out hl h)

/-- The returned dict of `fromFileCore`, expressed via the beam loop. -/
theorem fromFileCore_out (fmt : Nat → String) (cs : Bool) (product : String)
    (h5 : H5File) (beams : List String) (layers : List (String × String))
    (acq : String) :
    (fromFileCore fmt cs product h5 beams layers acq).out =
      match ((beamLoop fmt cs product h5 layers beams []).1).lookup "shot" with
      | none => .error (.keyError "shot")
      | some shots =>
        .ok (setKey ((beamLoop fmt cs product h5 layers beams []).1) "acq_time"
              (List.replicate shots.length (Cell.str acq))) := by
  unfold fromFileCore
  generalize beamLoop fmt cs product h5 layers beams [] = r
  cases hsh : r.1.lookup "shot" with
  | none => simp [hsh]
  | some shots => simp [hsh]

/-- C6 amended: in the extract.py variant, every cell of the shot column of
every `_from_file` result is the `f"{id:0>18}"` rendering of some shot
identifier (provided the layer list maps the `shot` column only to the
`shot_number` layer, as the default base layers do), and that rendering has
exactly 18 characters for every identifier below `10 ^ 18` and never fewer
than 18 characters.  The gedi.py variant renders `str(id)` without padding
(see the counterexample). -/
theorem c6_shot_identifier (product : String) (h5 : H5File)
    (beams : List String) (layers : List (String × String)) (acq : String)
    (out : OutMap) (cells : List Cell) (n : Nat)
    (hl : ∀ p ∈ layers, p.1 = "shot" → p.2 = "shot_number")
    (hout : (fromFileExtract product h5 beams layers acq).out = .ok out)
    (hcells : out.lookup "shot" = some cells)
    (hn : n < 10 ^ 18) :
    (∀ c ∈ cells, ∃ m, c = Cell.str (formatShot18 m)) ∧
    (formatShot18 n).length = 18 ∧
    18 ≤ (formatShot18 n).length := by
  have hOK : ShotOK (beamLoop formatShot18 true product h5 layers beams []).1 :=
    shotOK_beamLoop true product h5 layers beams [] hl (by
      intro cells0 hc0
      simp [List.lookup] at hc0)
  have hlen : (formatShot18 n).length =
      (18 - (Nat.repr n).length) + (Nat.repr n).length := by
    unfold formatShot18
    rw [String.length_append, String.length_mk, List.length_replicate]
  have hr : (Nat.repr n).length ≤ 18 := Nat.repr_length n 18 (by norm_num) hn
  refine ⟨?_, by omega, by omega⟩
  unfold fromFileExtract at hout
  rw [fromFileCore_out] at hout
  cases hsh : ((beamLoop formatShot18 true product h5 layers beams []).1).lookup "shot" with
  | none => rw [hsh] at hout; simp at hout
  | some shots =>
    rw [hsh] at hout
    simp only [Except.ok.injEq] at hout
    intro c hcm
    rw [← hout] at hcells
    rw [lookup_setKey_ne _ _ _ _ (by decide)] at hcells
    exact hOK cells hcells c hcm

theorem c6_witness :
    (formatShot18 29320619900465601).length = 18 ∧
    18 ≤ (formatShot18 29320619900465601).length :=
  (c6_shot_identifier "L2A" [("BEAM0000", goodBeam)] ["BEAM0000"] layersRh2 "t"
    [("shot", [Cell.str "000000000000000001"]),
     ("latitude", [Cell.num 10]),
     ("longitude", [Cell.num 20]),
     ("elev", [Cell.num 100]),
     ("elev_dem_tdx", [Cell.num 50]),
     ("degrade_flag", [Cell.num 0]),
     ("quality_flag", [Cell.num 1]),
     ("sensitivity", [Cell.num 1]),
     ("num_detectedmodes", [Cell.num 1]),
     ("rh2", [Cell.num 300]),
     ("acq_time", [Cell.str "t"])]
    [Cell.str "000000000000000001"] 29320619900465601
    (by decide) (by decide) (by decide) (by norm_num)).2

/-- C6 counterexample: the gedi.py variant's shot strings are not padded:
the same one-shot file yields the one-character shot string `"1"`, both in
`_from_file`'s dict and in the final output table of a run, so not every
output row carries an 18-character shot identifier. -/
theorem c6_counterexample :
    (fromFileGedi "L2A" [("BEAM0000", goodBeam)] ["BEAM0000"] layersRh2 "t").out
      = .ok [("shot", [Cell.str "1"]),
             ("latitude", [Cell.num 10]),
             ("longitude", [Cell.num 20]),
             ("elev", [Cell.num 100]),
             ("elev_dem_tdx", [Cell.num 50]),
             ("degrade_flag", [Cell.num 0]),
             ("quality_flag", [Cell.num 1]),
             ("sensitivity", [Cell.num 1]),
             ("num_detectedmodes", [Cell.num 1]),
             ("rh2", [Cell.num 300]),
             ("acq_time", [Cell.str "t"])] ∧
    formatShotGedi 1 = "1" ∧
    ("1" : String).length ≠ 18 ∧
    (runGediLoop "L2A" ["BEAM0000"] layersRh2 true (1, 12) [goodSrc]).output =
      some ⟨["shot", "elev", "elev_dem_tdx", "sensitivity", "num_detectedmodes",
             "rh2", "acq_time", "geometry"],
            [[Cell.str "1", Cell.num 100, Cell.num 50, Cell.num 1, Cell.num 1,
              Cell.num 300, Cell.str "t", Cell.pt 20 10]]⟩ := by decide

/-- Unrolling the per-file loop: the fold over `gediStep` adds the spec-side
error count and appends the kept per-file tables. -/
theorem gediStep_foldl (product : String) (beams : List String)
    (layers : List (String × String)) (aqf : Bool) (fm : Nat × Nat)
    (files : List SourceFile) (e0 : Nat) (g0 : List DF) :
    files.foldl (gediStep product beams layers aqf fm) (e0, g0) =
      (e0 + runErrors product beams layers aqf fm files,
       g0 ++ keptDFs product beams layers aqf fm files) := by
  induction files generalizing e0 g0 with
  | nil => simp [runErrors, keptDFs]
  | cons f fs ih =>
    simp only [List.foldl_cons]
    by_cases hm : monthPassGedi fm.1 fm.2 f.month = true
    · cases hp : processFileGedi product beams layers aqf f with
      | mk res e =>
        cases res with
        | ok df =>
          rw [show gediStep product beams layers aqf fm (e0, g0) f = (e0 + e, g0 ++ [df])
                from by simp [gediStep, hm, hp]]
          rw [ih]
          simp [runErrors, keptDFs, List.filter_cons, hm, hp, okD, Except.isOk, Except.toBool]
          omega
        | error err =>
          rw [show gediStep product beams layers aqf fm (e0, g0) f = (e0 + e + 1, g0)
                from by simp [gediStep, hm, hp]]
          rw [ih]
          simp [runErrors, keptDFs, List.filter_cons, hm, hp, okD, Except.isOk, Except.toBool]
          omega
    · rw [show gediStep product beams layers aqf fm (e0, g0) f = (e0, g0)
            from by simp [gediStep, hm]]
      rw [ih]
      simp [runErrors, keptDFs, List.filter_cons, hm]

/-- C8 amended (gedi.py, the variant whose error counter exists): per-file
exceptions never fail the run.  Whenever at least one in-month-range file
processes successfully, the run returns the concatenation of exactly the
successful files' tables in file order and writes it as the output; the
error counter ends at the number of failing in-range files (one increment
per failing file) plus the increments made inside `_from_file`; and the
summary warning is printed iff that count is nonzero.  In extract.py the
per-file handler itself is broken (see the counterexample). -/
theorem c8_per_file_error_isolation (product : String) (beams : List String)
    (layers : List (String × String)) (aqf : Bool) (fm : Nat × Nat)
    (files : List SourceFile)
    (h : keptDFs product beams layers aqf fm files ≠ []) :
    runGediLoop product beams layers aqf fm files =
      ⟨.ok (okD (concatDFs (keptDFs product beams layers aqf fm files))),
       runErrors product beams layers aqf fm files,
       some (okD (concatDFs (keptDFs product beams layers aqf fm files))),
       runErrors product beams layers aqf fm files != 0, true⟩ := by
  have hne : files ≠ [] := by
    intro hf
    rw [hf] at h
    simp [keptDFs] at h
  unfold runGediLoop
  rw [if_neg (by simpa [List.length_eq_zero] using hne)]
  rw [gediStep_foldl]
  cases hk : keptDFs product beams layers aqf fm files with
  | nil => exact absurd hk h
  | cons d ds => simp [concatDFs, okD, hk]

theorem c8_witness :
    runGediLoop "L2A" ["BEAM0000"] layersRh2 true (1, 12) [badSrc, goodSrc] =
      ⟨.ok (okD (concatDFs (keptDFs "L2A" ["BEAM0000"] layersRh2 true (1, 12)
                   [badSrc, goodSrc]))),
       runErrors "L2A" ["BEAM0000"] layersRh2 true (1, 12) [badSrc, goodSrc],
       some (okD (concatDFs (keptDFs "L2A" ["BEAM0000"] layersRh2 true (1, 12)
                    [badSrc, goodSrc]))),
       runErrors "L2A" ["BEAM0000"] layersRh2 true (1, 12) [badSrc, goodSrc] != 0,
       true⟩ :=
  c8_per_file_error_isolation "L2A" ["BEAM0000"] layersRh2 true (1, 12)
    [badSrc, goodSrc] (by decide)

/-- C8 counterexample: in the extract.py variant (the code the claim cites)
a run over a directory with one file that raises during beam extraction and
one valid file does not succeed at all: the whole call raises
`AttributeError('error_tracker')` — the error-counting machinery the
per-file handler relies on does not exist, and the run dies before the loop
is even reached. -/
theorem c8_counterexample :
    extractDataExtractPy "L2A" none [badSrc, goodSrc] =
      ⟨.raised (.attributeError "error_tracker"), 0, none, false, false⟩ ∧
    (extractDataExtractPy "L2A" none [badSrc, goodSrc]).outcome.isRaised = true := by
  decide
